import Mathlib

/-
  Verification of the process-lifecycle controller in runner.py.

  The orchestrator (function main in src/runner.py) is embedded as a pure
  Lean function over a discrete time model whose unit is one polling
  interval (0.1 s).  The process handle class Subtask is imported by the
  source from an external module and is not part of src/; its operations
  (spawn with readiness wait, poll, bounded wait, interrupt, kill) are
  modelled from the specification, as noted on each definition.
-/

namespace Runner

/-! ## Environment dictionaries (Python dict of str to str) -/

/-- A Python environment dictionary, as an insertion-ordered association
list with unique keys observed through lookup. -/
abbrev EnvMap := List (String × String)

/-- Lookup of a key, as Python `d[k]` / `d.get(k)` observes it. -/
def dictGet (m : EnvMap) (k : String) : Option String :=
  match m with
  | [] => none
  | p :: rest => if p.1 = k then some p.2 else dictGet rest k

/-- Store one key, overwriting an existing binding in place and otherwise
appending, as Python `d[k] = v` does. -/
def dictSet (m : EnvMap) (k v : String) : EnvMap :=
  match m with
  | [] => [(k, v)]
  | p :: rest => if p.1 = k then (k, v) :: rest else p :: dictSet rest k v

/-- Python `d.update(kvs)`: store every pair of `kvs` in order. -/
def dictUpdate (m : EnvMap) (kvs : List (String × String)) : EnvMap :=
  kvs.foldl (fun acc kv => dictSet acc kv.1 kv.2) m

/-! ## Constants of runner.py -/

/-- The number of tests to be run (runner.py line 16). -/
def NUM_TESTS : Nat := 100

/-- The number of requests to be sent per test (runner.py line 18). -/
def NUM_REQUESTS : Nat := 50

/-- Test timeout duration in seconds (runner.py line 20). -/
def TEST_TIMEOUT : Nat := 120

/-! ## Tester generators (runner.py lines 57-76)

Python passes the dictionary by reference and `env.update` mutates it, so
each generator is embedded as a function returning the caller's mapping as
it stands after the call, paired with the command line of the spawned
tester. -/

/-- `pytest_tester` (runner.py lines 57-65): updates the caller's `env`
with NUM_TESTS and NUM_REQUESTS, then spawns pytest with it.  The first
component is the caller's dictionary after the call. -/
def pytest_tester (env : EnvMap) : EnvMap × List String :=
  let env := dictUpdate env
    [("NUM_TESTS", toString NUM_TESTS), ("NUM_REQUESTS", toString NUM_REQUESTS)]
  (env, ["poetry", "run", "pytest"])

/-- `jest_tester` (runner.py lines 68-76): updates the caller's `env`
with NUM_TESTS and NUM_REQUESTS, then spawns the npm test script with it.
The first component is the caller's dictionary after the call. -/
def jest_tester (env : EnvMap) : EnvMap × List String :=
  let env := dictUpdate env
    [("NUM_TESTS", toString NUM_TESTS), ("NUM_REQUESTS", toString NUM_REQUESTS)]
  (env, ["npm", "run", "test"])

/-! ## The readiness predicate server_is_up (runner.py lines 23-31) -/

/-- The possible outcomes of the `requests.get` call inside
`server_is_up`: the request completes with some HTTP status code, it
raises `requests.exceptions.ConnectionError`, or it raises any other
exception (identified by a message). -/
inductive GetResult where
  | completed (status : Nat)
  | connectionError
  | otherError (msg : String)
  deriving DecidableEq, Repr

/-- `server_is_up` (runner.py lines 23-31): performs the GET and returns
`True` when it completes, catches only `ConnectionError` (returning
`False`); every other exception escapes, modelled by `Except.error`. -/
def server_is_up (r : GetResult) : Except String Bool :=
  match r with
  | .completed _ => .ok true
  | .connectionError => .ok false
  | .otherError msg => .error msg

/-! ## Process handle model

Modelled from the spec: the class `Subtask` (module `subtask`, imported at
runner.py line 6) is not part of src/, so its operations are modelled from
the specification of the Process Handle (spawn with readiness polling,
non-blocking poll, bounded wait implemented as a poll loop of fixed
granularity, graceful interrupt, forced kill).  Time is discrete, one tick
per polling interval (0.1 s). -/

/-- Modelled from the spec: the externally observable behaviour of one
spawned process (the `Subtask` class is not in src/).  `runsFor` is the
number of ticks after spawn at which the process exits on its own (`none`
means it never exits unprompted) with exit code `natCode`; `intrDelay` is
the number of ticks a graceful interrupt needs to make it exit with code
`intrCode` (`none` means it ignores the interrupt signal). -/
structure Proc where
  runsFor : Option Nat
  natCode : Int
  intrDelay : Option Nat
  intrCode : Int
  deriving DecidableEq, Repr

/-- Modelled from the spec: the tick at which a process spawned at
`spawnAt` and gracefully interrupted at `intrAt` (if ever) terminates,
with its exit code; `none` means it never terminates.  An interrupt
delivered while the process is still running makes it exit `intrDelay`
ticks later unless its natural exit comes first; an interrupt on an
already-terminated process is a no-op. -/
def Proc.exitEvent (p : Proc) (spawnAt : Nat) (intrAt : Option Nat) :
    Option (Nat × Int) :=
  let nat := p.runsFor.map (fun r => (spawnAt + r, p.natCode))
  match intrAt, p.intrDelay with
  | some k, some d =>
    match nat with
    | some tc => if tc.1 ≤ k + d then some tc else some (k + d, p.intrCode)
    | none => some (k + d, p.intrCode)
  | _, _ => nat

/-- Modelled from the spec: `poll()` at tick `t` — the exit status if the
process has terminated by `t`, otherwise `none` (still running). -/
def Proc.statusAt (p : Proc) (spawnAt : Nat) (intrAt : Option Nat)
    (t : Nat) : Option Int :=
  match p.exitEvent spawnAt intrAt with
  | some tc => if tc.1 ≤ t then some tc.2 else none
  | none => none

/-- Modelled from the spec: `wait(timeout)` as a poll loop of one-tick
granularity starting at tick `now` with a budget of `budget` ticks.
Returns the tick at which the call returns together with the status it
observed: the exit code if the process terminated within the window,
otherwise `none`. -/
def Proc.waitPoll (p : Proc) (spawnAt : Nat) (intrAt : Option Nat)
    (now : Nat) : Nat → Nat × Option Int
  | 0 => (now, p.statusAt spawnAt intrAt now)
  | budget + 1 =>
    match p.statusAt spawnAt intrAt now with
    | some c => (now, some c)
    | none => p.waitPoll spawnAt intrAt (now + 1) budget

/-- Modelled from the spec: `wait()` with no timeout — blocks until the
process terminates, returning the tick at which the call returns and the
exit code; `none` models the call never returning (the process never
terminates). -/
def Proc.waitNone (p : Proc) (spawnAt : Nat) (intrAt : Option Nat)
    (now : Nat) : Option (Nat × Int) :=
  (p.exitEvent spawnAt intrAt).map (fun tc => (max now tc.1, tc.2))

/-! ## The orchestrator (function main, runner.py lines 232-280) -/

/-- The observable operations main performs on its two process handles
during one pairing, used to record a per-pairing trace.  Each constructor
mirrors one line of runner.py: spawnServer and serverReady line 234,
recordStart line 236, spawnTester line 237, interruptTester line 246 or
261, recordDuration line 263, interruptServer line 264, waitServer line
265, killServer line 266, finalWaitTester line 273. -/
inductive Ev where
  | spawnServer
  | serverReady
  | recordStart
  | spawnTester
  | interruptTester
  | recordDuration
  | interruptServer
  | waitServer (budget : Nat)
  | killServer
  | finalWaitTester
  deriving DecidableEq, Repr

/-- The index of the first occurrence of event `e` in a timestamped
trace. -/
def evIdx (tr : List (Nat × Ev)) (e : Ev) : Option Nat :=
  match tr with
  | [] => none
  | p :: rest => if p.2 = e then some 0 else (evIdx rest e).map (· + 1)

/-- One row of the output table: the duration-or-status cell printed for a
pairing (runner.py lines 267-280).  `hung` marks a run of main that never
reaches the print, i.e. blocks forever. -/
inductive Row where
  | timeout (t : Nat)
  | error
  | success (durationTicks : Nat)
  | hung
  deriving DecidableEq, Repr

/-- Exceptions that can escape a pairing: a process spawn failing, or the
operator's keyboard interrupt. -/
inductive Exn where
  | spawnFailure
  | keyboardInterrupt
  deriving DecidableEq, Repr

/-- The two wait modes of the loop in main: progress mode when
`--progress` is in argv (runner.py line 241), silent mode otherwise. -/
inductive Mode where
  | silent
  | progress
  deriving DecidableEq, Repr

/-- One pairing's configuration and environment: the wait mode, whether
each spawn raises, how many ticks the server needs before its readiness
predicate holds, the behaviour of both processes, and the test timeout in
ticks (main uses TEST_TIMEOUT seconds, i.e. 10 * TEST_TIMEOUT ticks). -/
structure Cfg where
  mode : Mode
  serverSpawnErr : Option Exn
  serverReadyAfter : Nat
  testerSpawnErr : Option Exn
  tester : Proc
  server : Proc
  T : Nat
  deriving DecidableEq, Repr

/-- Everything one pairing's execution produces: the trace of handle
operations, the row printed (or the exception that escaped), the timeout
flag, the recorded start timestamp, the tick the tester was spawned, the
tick the tester was interrupted (if ever), the tick the server was
interrupted (if ever), the duration computed at runner.py line 263, and
the tick at which the pairing's code finished. -/
structure RunOut where
  trace : List (Nat × Ev)
  result : Except Exn Row
  timedOut : Bool
  startStamp : Nat
  testerSpawnAt : Nat
  testerIntrAt : Option Nat
  serverIntrAt : Option Nat
  durationTicks : Nat
  endTime : Nat
  deriving Repr

/-- The bounded grace wait on the server, `server_proc.wait(1)` at
runner.py line 265: one second, i.e. ten polling intervals. -/
def graceTicks : Nat := 10

/-- Silent mode (runner.py lines 258-262): one blocking
`wait(TEST_TIMEOUT)`; if its value differs from 0 and a poll still shows
the tester running, interrupt it and set the timeout flag.  Returns the
tick at which the phase ends and the timeout flag. -/
def silentStep (p : Proc) (start T : Nat) : Nat × Bool :=
  let w := p.waitPoll start none start T
  if w.2 ≠ some 0 then
    match p.statusAt start none w.1 with
    | none => (w.1, true)
    | some _ => (w.1, false)
  else (w.1, false)

/-- Progress mode (runner.py lines 241-257): repeat `wait(0.1)`; when it
returns a status the loop ends without timeout; otherwise recompute the
duration and, once it exceeds `T`, interrupt the tester and break with the
timeout flag set.  The fuel argument only bounds the recursion; `none`
(exhaustion) is proved unreachable for fuel `T + 2`. -/
def progressLoop (p : Proc) (start T : Nat) : Nat → Nat → Option (Nat × Bool)
  | _, 0 => none
  | now, fuel + 1 =>
    match p.waitPoll start none now 1 with
    | (now1, some _) => some (now1, false)
    | (now1, none) =>
      if now1 - start > T then some (now1, true)
      else progressLoop p start T now1 fuel

/-- The wait phase of one pairing in either mode: from the start
timestamp, the tick at which main stops waiting on the tester and the
timeout flag. -/
def waitOutcome (c : Cfg) (start : Nat) : Option (Nat × Bool) :=
  match c.mode with
  | .silent => some (silentStep c.tester start c.T)
  | .progress => progressLoop c.tester start c.T start (c.T + 2)

/-- One iteration of the loop of main (runner.py lines 232-280) for one
pairing: spawn the server (blocking on its readiness predicate), record
the start timestamp, spawn the tester, run the wait phase of the selected
mode, compute the duration, tear the server down (interrupt, bounded
grace wait, kill), and print the row chosen by lines 267-280.  A spawn
exception escapes, producing no row and cutting the trace short at the
point it was raised. -/
def runPairing (c : Cfg) : RunOut :=
  match c.serverSpawnErr with
  | some e =>
    { trace := [(0, .spawnServer)], result := .error e, timedOut := false,
      startStamp := 0, testerSpawnAt := 0, testerIntrAt := none,
      serverIntrAt := none, durationTicks := 0, endTime := 0 }
  | none =>
    let ready := c.serverReadyAfter
    let start := ready
    let pre : List (Nat × Ev) :=
      [(0, .spawnServer), (ready, .serverReady), (start, .recordStart)]
    match c.testerSpawnErr with
    | some e =>
      { trace := pre, result := .error e, timedOut := false,
        startStamp := start, testerSpawnAt := start, testerIntrAt := none,
        serverIntrAt := none, durationTicks := 0, endTime := start }
    | none =>
      let base := pre ++ [(start, .spawnTester)]
      match waitOutcome c start with
      | none =>
        { trace := base, result := .ok .hung, timedOut := false,
          startStamp := start, testerSpawnAt := start, testerIntrAt := none,
          serverIntrAt := none, durationTicks := 0, endTime := start }
      | some (t1, timedOut) =>
        let intrAt : Option Nat := if timedOut then some t1 else none
        let duration := t1 - start
        let afterWait := base ++
          (if timedOut then [(t1, .interruptTester)] else []) ++
          [(t1, .recordDuration)]
        let t2 := (c.server.waitPoll 0 (some t1) t1 graceTicks).1
        let teardown :=
          [(t1, .interruptServer), (t1, .waitServer graceTicks),
           (t2, .killServer)]
        if timedOut then
          { trace := afterWait ++ teardown,
            result := .ok (.timeout c.T), timedOut := true,
            startStamp := start, testerSpawnAt := start, testerIntrAt := intrAt,
            serverIntrAt := some t1, durationTicks := duration, endTime := t2 }
        else
          match c.tester.waitNone start intrAt t2 with
          | some tc =>
            { trace := afterWait ++ teardown ++ [(t2, .finalWaitTester)],
              result := .ok (if tc.2 ≠ 0 then .error else .success duration),
              timedOut := false,
              startStamp := start, testerSpawnAt := start, testerIntrAt := intrAt,
              serverIntrAt := some t1, durationTicks := duration, endTime := tc.1 }
          | none =>
            { trace := afterWait ++ teardown ++ [(t2, .finalWaitTester)],
              result := .ok .hung, timedOut := false,
              startStamp := start, testerSpawnAt := start, testerIntrAt := intrAt,
              serverIntrAt := some t1, durationTicks := duration, endTime := t2 }

/-- The loop of main over the whole variant list: one row per pairing,
unless an exception escapes a pairing, which aborts the run at that point
(main has no handler around the loop body). -/
def runAll : List Cfg → Except Exn (List Row)
  | [] => .ok []
  | c :: rest =>
    match (runPairing c).result with
    | .error e => .error e
    | .ok row =>
      match runAll rest with
      | .error e => .error e
      | .ok rows => .ok (row :: rows)

/-- The `__main__` guard (runner.py lines 283-288): run main; a
KeyboardInterrupt is caught, an abort notice is printed (the boolean),
and the exception is re-raised; any other exception propagates without a
notice. -/
def mainEntry (cs : List Cfg) : Bool × Except Exn (List Row) :=
  match runAll cs with
  | .error .keyboardInterrupt => (true, .error .keyboardInterrupt)
  | r => (false, r)

/-- Whether the tester process of pairing `c` is still running at the
tick its pairing finishes.  main never calls `kill()` on the tester
handle, so the tester is running exactly when its exit event (given the
interrupts main issued) has not happened by then. -/
def testerRunningAtEnd (c : Cfg) : Bool :=
  let r := runPairing c
  (c.tester.statusAt r.testerSpawnAt r.testerIntrAt r.endTime).isNone

/-- Whether the server process of pairing `c` is still running at the
tick its pairing finishes: it must not have been force-killed (kill is
non-catchable, so a killed process is terminated) and its own exit event
must not have happened by then. -/
def serverRunningAtEnd (c : Cfg) : Bool :=
  let r := runPairing c
  (evIdx r.trace .killServer).isNone &&
    (c.server.statusAt 0 r.serverIntrAt r.endTime).isNone

/-- Whether event `a` occurs in the trace `tr` strictly before event `b`
(both must occur). -/
def evBefore (tr : List (Nat × Ev)) (a b : Ev) : Bool :=
  match evIdx tr a, evIdx tr b with
  | some i, some j => decide (i < j)
  | _, _ => false

/-! ## Concrete pairing configurations used as witnesses and
counterexamples -/

/-- A silent-mode pairing whose tester exits with code 0 after 3 ticks. -/
def cfgC1 : Cfg :=
  { mode := .silent, serverSpawnErr := none, serverReadyAfter := 2,
    testerSpawnErr := none, tester := ⟨some 3, 0, none, 0⟩,
    server := ⟨none, 0, some 1, -2⟩, T := 5 }

/-- A silent-mode pairing with timeout 2 ticks whose tester never exits on
its own and ignores the interrupt signal. -/
def cfgC2 : Cfg :=
  { mode := .silent, serverSpawnErr := none, serverReadyAfter := 0,
    testerSpawnErr := none, tester := ⟨none, 0, none, 0⟩,
    server := ⟨none, 0, none, 0⟩, T := 2 }

/-- A pairing whose server spawn raises SpawnFailure. -/
def cfgC3fail : Cfg :=
  { mode := .silent, serverSpawnErr := some .spawnFailure,
    serverReadyAfter := 0, testerSpawnErr := none,
    tester := ⟨some 1, 0, none, 0⟩, server := ⟨none, 0, none, 0⟩, T := 5 }

/-- A pairing that completes normally: the tester exits with code 0 after
1 tick. -/
def cfgC3good : Cfg :=
  { mode := .silent, serverSpawnErr := none, serverReadyAfter := 0,
    testerSpawnErr := none, tester := ⟨some 1, 0, none, 0⟩,
    server := ⟨none, 0, none, 0⟩, T := 5 }

/-- A pairing whose server spawn is interrupted by the operator. -/
def cfgC3ki : Cfg :=
  { mode := .silent, serverSpawnErr := some .keyboardInterrupt,
    serverReadyAfter := 0, testerSpawnErr := none,
    tester := ⟨some 1, 0, none, 0⟩, server := ⟨none, 0, none, 0⟩, T := 5 }

/-- A pairing whose server spawns fine but whose tester spawn raises
SpawnFailure. -/
def cfgC4 : Cfg :=
  { mode := .silent, serverSpawnErr := none, serverReadyAfter := 3,
    testerSpawnErr := some .spawnFailure, tester := ⟨some 1, 0, none, 0⟩,
    server := ⟨none, 0, none, 0⟩, T := 5 }

/-- A pairing that completes normally, for the cleanup side of claim
C4. -/
def cfgC4ok : Cfg :=
  { mode := .silent, serverSpawnErr := none, serverReadyAfter := 1,
    testerSpawnErr := none, tester := ⟨some 2, 1, none, 0⟩,
    server := ⟨none, 0, none, 0⟩, T := 4 }

/-- A progress-mode pairing with timeout 3 ticks whose tester never exits
and ignores the interrupt signal. -/
def cfgC5 : Cfg :=
  { mode := .progress, serverSpawnErr := none, serverReadyAfter := 0,
    testerSpawnErr := none, tester := ⟨none, 0, none, 0⟩,
    server := ⟨none, 0, none, 0⟩, T := 3 }

/-- A progress-mode pairing with timeout 3 ticks whose tester exits with
code 0 after 4 ticks: its run time exceeds the timeout by exactly one
polling interval. -/
def cfgC6 : Cfg :=
  { mode := .progress, serverSpawnErr := none, serverReadyAfter := 0,
    testerSpawnErr := none, tester := ⟨some 4, 0, none, 0⟩,
    server := ⟨none, 0, none, 0⟩, T := 3 }

/-- A silent-mode pairing with timeout 2 ticks whose tester never exits,
used to witness the amended claim C6. -/
def cfgC6w : Cfg :=
  { mode := .silent, serverSpawnErr := none, serverReadyAfter := 1,
    testerSpawnErr := none, tester := ⟨none, 0, some 1, -2⟩,
    server := ⟨none, 0, some 1, -2⟩, T := 2 }

/-- A silent-mode pairing with a 4-tick readiness delay whose tester exits
with code 0 after 2 ticks. -/
def cfgC7 : Cfg :=
  { mode := .silent, serverSpawnErr := none, serverReadyAfter := 4,
    testerSpawnErr := none, tester := ⟨some 2, 0, none, 0⟩,
    server := ⟨none, 0, some 1, -2⟩, T := 6 }

/-- A progress-mode pairing whose tester exits with code 1 after 2
ticks. -/
def cfgC8 : Cfg :=
  { mode := .progress, serverSpawnErr := none, serverReadyAfter := 2,
    testerSpawnErr := none, tester := ⟨some 2, 1, none, 0⟩,
    server := ⟨none, 0, some 1, -2⟩, T := 4 }

/-! ## Closed forms of the wait primitives -/

/-- The bound, in ticks past the start timestamp, up to which each wait
mode lets the tester run before declaring a timeout: silent mode checks
once the full budget has elapsed, progress mode only detects the excess at
the poll after the budget. -/
def modeBound (m : Mode) (T : Nat) : Nat :=
  match m with
  | .silent => T
  | .progress => T + 1

/-- The closed form of a wait phase: given the tester's exit event `E`
(spawned at `start`, never interrupted before the phase ends) and the
bound in ticks past `start` at which the phase gives up, the tick at
which the phase ends and the timeout flag. -/
def phaseResult (start bound : Nat) (E : Option (Nat × Int)) : Nat × Bool :=
  match E with
  | some tc =>
    if tc.1 ≤ start + bound then (max start tc.1, false) else (start + bound, true)
  | none => (start + bound, true)

theorem Proc.waitPoll_spec (p : Proc) (spawnAt : Nat) (intrAt : Option Nat) :
    ∀ budget now, p.waitPoll spawnAt intrAt now budget =
      match p.exitEvent spawnAt intrAt with
      | some tc =>
        if tc.1 ≤ now then (now, some tc.2)
        else if tc.1 ≤ now + budget then (tc.1, some tc.2)
        else (now + budget, none)
      | none => (now + budget, none) := by
  intro budget
  induction budget with
  | zero =>
    intro now
    cases h : p.exitEvent spawnAt intrAt with
    | none => simp [Proc.waitPoll, Proc.statusAt, h]
    | some tc =>
      by_cases hle : tc.1 ≤ now
      · simp [Proc.waitPoll, Proc.statusAt, h, hle]
      · simp [Proc.waitPoll, Proc.statusAt, h, hle]
  | succ budget ih =>
    intro now
    cases h : p.exitEvent spawnAt intrAt with
    | none =>
      have hst : p.statusAt spawnAt intrAt now = none := by
        simp [Proc.statusAt, h]
      have hrec : p.waitPoll spawnAt intrAt now (budget + 1) =
          p.waitPoll spawnAt intrAt (now + 1) budget := by
        simp [Proc.waitPoll, hst]
      rw [hrec, ih]
      simp [h]
      omega
    | some tc =>
      by_cases hle : tc.1 ≤ now
      · have hst : p.statusAt spawnAt intrAt now = some tc.2 := by
          simp [Proc.statusAt, h, hle]
        simp [Proc.waitPoll, hst, h, hle]
      · have hst : p.statusAt spawnAt intrAt now = none := by
          simp [Proc.statusAt, h, hle]
        have hrec : p.waitPoll spawnAt intrAt now (budget + 1) =
            p.waitPoll spawnAt intrAt (now + 1) budget := by
          simp [Proc.waitPoll, hst]
        rw [hrec, ih]
        simp only [h, hle, if_false]
        by_cases h1 : tc.1 ≤ now + 1
        · have : tc.1 ≤ now + (budget + 1) := by omega
          simp only [h1, if_true, this]
          have : now + 1 = tc.1 := by omega
          simp [this]
        · by_cases h2 : tc.1 ≤ now + 1 + budget
          · have : tc.1 ≤ now + (budget + 1) := by omega
            simp [h1, h2, this]
          · have h3 : ¬ tc.1 ≤ now + (budget + 1) := by omega
            simp only [h1, if_false, h2, h3]
            have h5 : now + 1 + budget = now + (budget + 1) := by omega
            rw [h5]

theorem silentStep_spec (p : Proc) (start T : Nat) :
    silentStep p start T = phaseResult start T (p.exitEvent start none) := by
  cases h : p.exitEvent start none with
  | none =>
    have hw := p.waitPoll_spec start none T start
    rw [h] at hw
    have hst : p.statusAt start none (start + T) = none := by
      simp [Proc.statusAt, h]
    simp [silentStep, hw, hst, phaseResult]
  | some tc =>
    have hw := p.waitPoll_spec start none T start
    rw [h] at hw
    by_cases h0 : tc.1 ≤ start
    · have hle : tc.1 ≤ start + T := by omega
      have hst : p.statusAt start none start = some tc.2 := by
        simp [Proc.statusAt, h, h0]
      have hmax : max start tc.1 = start := by omega
      by_cases hz : tc.2 = 0
      · simp [silentStep, hw, h0, hz, hle, hmax, phaseResult]
      · simp [silentStep, hw, h0, hz, hle, hmax, hst, phaseResult]
    · by_cases hle : tc.1 ≤ start + T
      · have hst : p.statusAt start none tc.1 = some tc.2 := by
          simp [Proc.statusAt, h]
        have hmax : max start tc.1 = tc.1 := by omega
        by_cases hz : tc.2 = 0
        · simp [silentStep, hw, h0, hle, hz, hmax, phaseResult]
        · simp [silentStep, hw, h0, hle, hz, hmax, hst, phaseResult]
      · have hst : p.statusAt start none (start + T) = none := by
          simp [Proc.statusAt, h]
          omega
        simp [silentStep, hw, h0, hle, hst, phaseResult]

theorem progressLoop_go (p : Proc) (start T : Nat) :
    ∀ fuel now, start ≤ now → now - start ≤ T →
      p.statusAt start none now = none →
      start + T + 2 - now ≤ fuel →
      progressLoop p start T now fuel =
        some (phaseResult start (T + 1) (p.exitEvent start none)) := by
  intro fuel
  induction fuel with
  | zero =>
    intro now h1 h2 _ h4
    omega
  | succ fuel ih =>
    intro now h1 h2 hst h4
    have hw : p.waitPoll start none now 1 =
        (now + 1, p.statusAt start none (now + 1)) := by
      simp [Proc.waitPoll, hst]
    cases hst1 : p.statusAt start none (now + 1) with
    | some c =>
      rw [hst1] at hw
      have hloop : progressLoop p start T now (fuel + 1) = some (now + 1, false) := by
        simp [progressLoop, hw]
      rw [hloop]
      cases h : p.exitEvent start none with
      | none => simp [Proc.statusAt, h] at hst1
      | some tc =>
        have hgt : ¬ tc.1 ≤ now := by
          simp [Proc.statusAt, h] at hst
          omega
        have hle1 : tc.1 ≤ now + 1 := by
          simp [Proc.statusAt, h] at hst1
          by_contra hc
          simp [hc] at hst1
        have heq : tc.1 = now + 1 := by omega
        have hc2 : now + 1 ≤ start + (T + 1) := by omega
        have hmax : max start (now + 1) = now + 1 := by omega
        simp [phaseResult, heq, hc2, hmax]
    | none =>
      rw [hst1] at hw
      by_cases hbr : now + 1 - start > T
      · have hloop : progressLoop p start T now (fuel + 1) =
            some (now + 1, true) := by
          simp [progressLoop, hw, hbr]
        rw [hloop]
        have heq : now + 1 = start + (T + 1) := by omega
        cases h : p.exitEvent start none with
        | none => simp [phaseResult, heq]
        | some tc =>
          have hgt : ¬ tc.1 ≤ now + 1 := by
            simp [Proc.statusAt, h] at hst1
            omega
          have hc2 : ¬ tc.1 ≤ start + (T + 1) := by omega
          simp [phaseResult, hc2, heq]
      · have hloop : progressLoop p start T now (fuel + 1) =
            progressLoop p start T (now + 1) fuel := by
          simp [progressLoop, hw, hbr]
        rw [hloop]
        exact ih (now + 1) (by omega) (by omega) hst1 (by omega)

theorem progressLoop_spec (p : Proc) (start T : Nat) :
    progressLoop p start T start (T + 2) =
      some (phaseResult start (T + 1) (p.exitEvent start none)) := by
  cases hst : p.statusAt start none start with
  | some c =>
    have hw : p.waitPoll start none start 1 = (start, some c) := by
      simp [Proc.waitPoll, hst]
    have hloop : progressLoop p start T start (T + 2) = some (start, false) := by
      simp [progressLoop, hw]
    rw [hloop]
    cases h : p.exitEvent start none with
    | none => simp [Proc.statusAt, h] at hst
    | some tc =>
      have hle0 : tc.1 ≤ start := by
        simp [Proc.statusAt, h] at hst
        by_contra hc
        simp [hc] at hst
      have hc2 : tc.1 ≤ start + (T + 1) := by omega
      have hmax : max start tc.1 = start := by omega
      simp [phaseResult, hc2, hmax]
  | none =>
    exact progressLoop_go p start T (T + 2) start (Nat.le_refl start)
      (by omega) hst (by omega)

theorem waitOutcome_spec (c : Cfg) (start : Nat) :
    waitOutcome c start =
      some (phaseResult start (modeBound c.mode c.T)
        (c.tester.exitEvent start none)) := by
  cases hm : c.mode with
  | silent =>
    simp only [waitOutcome, hm, modeBound]
    rw [silentStep_spec]
  | progress =>
    simp only [waitOutcome, hm, modeBound]
    rw [progressLoop_spec]

/-! ## Characterization of runPairing on spawn-ok configurations -/

theorem runPairing_exit (c : Cfg) (hs : c.serverSpawnErr = none)
    (ht : c.testerSpawnErr = none) (te : Nat) (code : Int)
    (hE : c.tester.exitEvent c.serverReadyAfter none = some (te, code))
    (hle : te ≤ c.serverReadyAfter + modeBound c.mode c.T) :
    runPairing c = {
      trace := [(0, .spawnServer), (c.serverReadyAfter, .serverReady),
        (c.serverReadyAfter, .recordStart), (c.serverReadyAfter, .spawnTester),
        (max c.serverReadyAfter te, .recordDuration),
        (max c.serverReadyAfter te, .interruptServer),
        (max c.serverReadyAfter te, .waitServer graceTicks),
        ((c.server.waitPoll 0 (some (max c.serverReadyAfter te))
            (max c.serverReadyAfter te) graceTicks).1, .killServer),
        ((c.server.waitPoll 0 (some (max c.serverReadyAfter te))
            (max c.serverReadyAfter te) graceTicks).1, .finalWaitTester)],
      result := .ok (if code ≠ 0 then .error else
        .success (max c.serverReadyAfter te - c.serverReadyAfter)),
      timedOut := false,
      startStamp := c.serverReadyAfter,
      testerSpawnAt := c.serverReadyAfter,
      testerIntrAt := none,
      serverIntrAt := some (max c.serverReadyAfter te),
      durationTicks := max c.serverReadyAfter te - c.serverReadyAfter,
      endTime := max (c.server.waitPoll 0 (some (max c.serverReadyAfter te))
          (max c.serverReadyAfter te) graceTicks).1 te } := by
  have hphase : phaseResult c.serverReadyAfter (modeBound c.mode c.T)
      (c.tester.exitEvent c.serverReadyAfter none) =
      (max c.serverReadyAfter te, false) := by
    simp [phaseResult, hE, hle]
  have hwn : c.tester.waitNone c.serverReadyAfter none
      ((c.server.waitPoll 0 (some (max c.serverReadyAfter te))
        (max c.serverReadyAfter te) graceTicks).1) =
      some (max ((c.server.waitPoll 0 (some (max c.serverReadyAfter te))
        (max c.serverReadyAfter te) graceTicks).1) te, code) := by
    simp [Proc.waitNone, hE]
  simp [runPairing, hs, ht, waitOutcome_spec, hphase, hwn]

theorem runPairing_timeout (c : Cfg) (hs : c.serverSpawnErr = none)
    (ht : c.testerSpawnErr = none)
    (hrun : c.tester.statusAt c.serverReadyAfter none
      (c.serverReadyAfter + modeBound c.mode c.T) = none) :
    runPairing c = {
      trace := [(0, .spawnServer), (c.serverReadyAfter, .serverReady),
        (c.serverReadyAfter, .recordStart), (c.serverReadyAfter, .spawnTester),
        (c.serverReadyAfter + modeBound c.mode c.T, .interruptTester),
        (c.serverReadyAfter + modeBound c.mode c.T, .recordDuration),
        (c.serverReadyAfter + modeBound c.mode c.T, .interruptServer),
        (c.serverReadyAfter + modeBound c.mode c.T, .waitServer graceTicks),
        ((c.server.waitPoll 0 (some (c.serverReadyAfter + modeBound c.mode c.T))
            (c.serverReadyAfter + modeBound c.mode c.T) graceTicks).1,
          .killServer)],
      result := .ok (.timeout c.T),
      timedOut := true,
      startStamp := c.serverReadyAfter,
      testerSpawnAt := c.serverReadyAfter,
      testerIntrAt := some (c.serverReadyAfter + modeBound c.mode c.T),
      serverIntrAt := some (c.serverReadyAfter + modeBound c.mode c.T),
      durationTicks := modeBound c.mode c.T,
      endTime := (c.server.waitPoll 0
          (some (c.serverReadyAfter + modeBound c.mode c.T))
          (c.serverReadyAfter + modeBound c.mode c.T) graceTicks).1 } := by
  have hphase : phaseResult c.serverReadyAfter (modeBound c.mode c.T)
      (c.tester.exitEvent c.serverReadyAfter none) =
      (c.serverReadyAfter + modeBound c.mode c.T, true) := by
    cases h : c.tester.exitEvent c.serverReadyAfter none with
    | none => simp [phaseResult]
    | some tc =>
      have hgt : ¬ tc.1 ≤ c.serverReadyAfter + modeBound c.mode c.T := by
        simp [Proc.statusAt, h] at hrun
        omega
      simp [phaseResult, hgt]
  simp [runPairing, hs, ht, waitOutcome_spec, hphase]

/-! ## Dictionary lemmas -/

theorem dictGet_dictSet_self (m : EnvMap) (k v : String) :
    dictGet (dictSet m k v) k = some v := by
  induction m with
  | nil => simp [dictSet, dictGet]
  | cons p rest ih =>
    by_cases h : p.1 = k
    · simp [dictSet, h, dictGet]
    · simp [dictSet, h, dictGet, ih]

theorem dictGet_dictSet_ne (m : EnvMap) (k k2 v : String) (hne : k2 ≠ k) :
    dictGet (dictSet m k2 v) k = dictGet m k := by
  induction m with
  | nil => simp [dictSet, dictGet, hne]
  | cons p rest ih =>
    by_cases h : p.1 = k2
    · simp [dictSet, h, dictGet, hne]
    · simp [dictSet, h, dictGet, ih]

/-! ## Claim theorems -/

/-- Claim C9: both tester generators mutate the caller's environment
mapping in place, adding (and overwriting if present) the keys NUM_TESTS
and NUM_REQUESTS; every other key of the caller's mapping is left
untouched. -/
theorem claim_C9 :
    (∀ env : EnvMap, dictGet (pytest_tester env).1 "NUM_TESTS" = some "100" ∧
      dictGet (pytest_tester env).1 "NUM_REQUESTS" = some "50") ∧
    (∀ env : EnvMap, dictGet (jest_tester env).1 "NUM_TESTS" = some "100" ∧
      dictGet (jest_tester env).1 "NUM_REQUESTS" = some "50") ∧
    (∀ env : EnvMap, ∀ k : String, k ≠ "NUM_TESTS" → k ≠ "NUM_REQUESTS" →
      dictGet (pytest_tester env).1 k = dictGet env k ∧
      dictGet (jest_tester env).1 k = dictGet env k) := by
  have hupd : ∀ env : EnvMap,
      dictUpdate env [("NUM_TESTS", toString NUM_TESTS),
        ("NUM_REQUESTS", toString NUM_REQUESTS)] =
      dictSet (dictSet env "NUM_TESTS" "100") "NUM_REQUESTS" "50" := by
    intro env
    rfl
  refine ⟨fun env => ?_, fun env => ?_, fun env k h1 h2 => ?_⟩
  · constructor
    · rw [show (pytest_tester env).1 =
        dictSet (dictSet env "NUM_TESTS" "100") "NUM_REQUESTS" "50" from hupd env]
      rw [dictGet_dictSet_ne _ _ _ _ (by decide), dictGet_dictSet_self]
    · rw [show (pytest_tester env).1 =
        dictSet (dictSet env "NUM_TESTS" "100") "NUM_REQUESTS" "50" from hupd env]
      rw [dictGet_dictSet_self]
  · constructor
    · rw [show (jest_tester env).1 =
        dictSet (dictSet env "NUM_TESTS" "100") "NUM_REQUESTS" "50" from hupd env]
      rw [dictGet_dictSet_ne _ _ _ _ (by decide), dictGet_dictSet_self]
    · rw [show (jest_tester env).1 =
        dictSet (dictSet env "NUM_TESTS" "100") "NUM_REQUESTS" "50" from hupd env]
      rw [dictGet_dictSet_self]
  · constructor
    · rw [show (pytest_tester env).1 =
        dictSet (dictSet env "NUM_TESTS" "100") "NUM_REQUESTS" "50" from hupd env]
      rw [dictGet_dictSet_ne _ _ _ _ (Ne.symm h2), dictGet_dictSet_ne _ _ _ _ (Ne.symm h1)]
    · rw [show (jest_tester env).1 =
        dictSet (dictSet env "NUM_TESTS" "100") "NUM_REQUESTS" "50" from hupd env]
      rw [dictGet_dictSet_ne _ _ _ _ (Ne.symm h2), dictGet_dictSet_ne _ _ _ _ (Ne.symm h1)]

/-- Claim C9 witness: on a mapping that already binds NUM_TESTS, the call
overwrites it with "100" and leaves an unrelated key PATH unchanged. -/
theorem claim_C9_witness :
    dictGet (pytest_tester [("NUM_TESTS", "7"), ("PATH", "/x")]).1 "NUM_TESTS" =
      some "100" ∧
    dictGet (pytest_tester [("NUM_TESTS", "7"), ("PATH", "/x")]).1 "PATH" =
      dictGet [("NUM_TESTS", "7"), ("PATH", "/x")] "PATH" :=
  ⟨(claim_C9.1 [("NUM_TESTS", "7"), ("PATH", "/x")]).1,
   (claim_C9.2.2 [("NUM_TESTS", "7"), ("PATH", "/x")] "PATH"
     (by decide) (by decide)).1⟩

/-- Claim C10: server_is_up returns False exactly on ConnectionError,
True whenever the request completes regardless of the HTTP status code,
and lets any other exception propagate. -/
theorem claim_C10 :
    (∀ s : Nat, server_is_up (.completed s) = .ok true) ∧
    (∀ r : GetResult, server_is_up r = .ok false ↔ r = .connectionError) ∧
    (∀ m : String, server_is_up (.otherError m) = .error m) := by
  refine ⟨fun s => rfl, fun r => ?_, fun m => rfl⟩
  cases r <;> simp [server_is_up]

/-- Claim C1: for every pairing whose spawns succeed, the reported row is
decided in priority order: the timeout flag forces Timeout(TEST_TIMEOUT);
otherwise the tester has terminated and its actual exit status decides
between Error (non-zero) and Success(duration) (zero). -/
theorem claim_C1 (c : Cfg) (hs : c.serverSpawnErr = none)
    (ht : c.testerSpawnErr = none) :
    ((runPairing c).timedOut = true →
      (runPairing c).result = .ok (.timeout c.T)) ∧
    ((runPairing c).timedOut = false →
      ∃ te code,
        c.tester.exitEvent (runPairing c).testerSpawnAt none = some (te, code) ∧
        (runPairing c).result =
          .ok (if code ≠ 0 then Row.error
            else Row.success (runPairing c).durationTicks)) := by
  cases hE : c.tester.exitEvent c.serverReadyAfter none with
  | none =>
    have hrun : c.tester.statusAt c.serverReadyAfter none
        (c.serverReadyAfter + modeBound c.mode c.T) = none := by
      simp [Proc.statusAt, hE]
    rw [runPairing_timeout c hs ht hrun]
    refine ⟨fun _ => rfl, fun hco => ?_⟩
    simp at hco
  | some tc =>
    by_cases hle : tc.1 ≤ c.serverReadyAfter + modeBound c.mode c.T
    · rw [runPairing_exit c hs ht tc.1 tc.2 hE hle]
      refine ⟨fun hco => ?_, fun _ => ⟨tc.1, tc.2, ?_, ?_⟩⟩
      · simp at hco
      · simpa using hE
      · rfl
    · have hrun : c.tester.statusAt c.serverReadyAfter none
          (c.serverReadyAfter + modeBound c.mode c.T) = none := by
        simp [Proc.statusAt, hE, hle]
      rw [runPairing_timeout c hs ht hrun]
      refine ⟨fun _ => rfl, fun hco => ?_⟩
      simp at hco

/-- Claim C1 witness: the theorem applied to the concrete pairing
cfgC1. -/
theorem claim_C1_witness :
    ((runPairing cfgC1).timedOut = true →
      (runPairing cfgC1).result = .ok (.timeout cfgC1.T)) ∧
    ((runPairing cfgC1).timedOut = false →
      ∃ te code,
        cfgC1.tester.exitEvent (runPairing cfgC1).testerSpawnAt none =
          some (te, code) ∧
        (runPairing cfgC1).result =
          .ok (if code ≠ 0 then Row.error
            else Row.success (runPairing cfgC1).durationTicks)) :=
  claim_C1 cfgC1 rfl rfl

/-- Claim C2 counterexample: in the pairing cfgC2 the tester times out,
is interrupted but ignores the signal, and — since main never grace-waits
on or kills the tester — is still running when the pairing completes with
its Timeout row, contradicting the claimed teardown invariant and the
claimed interrupt-then-kill escalation on the tester. -/
theorem claim_C2_counterexample :
    (runPairing cfgC2).result = .ok (.timeout 2) ∧
    (runPairing cfgC2).timedOut = true ∧
    evIdx (runPairing cfgC2).trace .interruptTester = some 4 ∧
    evIdx (runPairing cfgC2).trace .killServer = some 8 ∧
    testerRunningAtEnd cfgC2 = true := by
  refine ⟨rfl, rfl, by decide, by decide, rfl⟩

/-- Claim C2 amended: after a pairing whose spawns succeed, the server
never remains running (it is interrupted, grace-waited and killed); the
tester does not remain running when no timeout was declared; a timed-out
tester is interrupted, but nothing stronger holds — it is never killed,
so it may remain running. -/
theorem claim_C2_amended (c : Cfg) (hs : c.serverSpawnErr = none)
    (ht : c.testerSpawnErr = none) :
    serverRunningAtEnd c = false ∧
    ((runPairing c).timedOut = false → testerRunningAtEnd c = false) ∧
    ((runPairing c).timedOut = true →
      (evIdx (runPairing c).trace .interruptTester).isSome = true) := by
  cases hE : c.tester.exitEvent c.serverReadyAfter none with
  | none =>
    have hrec := runPairing_timeout c hs ht (by simp [Proc.statusAt, hE])
    refine ⟨?_, fun hco => ?_, fun _ => ?_⟩
    · simp [serverRunningAtEnd, hrec, evIdx]
    · rw [hrec] at hco; simp at hco
    · simp [hrec, evIdx]
  | some tc =>
    by_cases hle : tc.1 ≤ c.serverReadyAfter + modeBound c.mode c.T
    · have hrec := runPairing_exit c hs ht tc.1 tc.2 hE hle
      refine ⟨?_, fun _ => ?_, fun hco => ?_⟩
      · simp [serverRunningAtEnd, hrec, evIdx]
      · have hle2 : tc.1 ≤
            max ((c.server.waitPoll 0 (some (max c.serverReadyAfter tc.1))
              (max c.serverReadyAfter tc.1) graceTicks).1) tc.1 :=
          le_max_right _ _
        simp [testerRunningAtEnd, hrec, Proc.statusAt, hE, hle2]
      · rw [hrec] at hco; simp at hco
    · have hrec := runPairing_timeout c hs ht (by simp [Proc.statusAt, hE, hle])
      refine ⟨?_, fun hco => ?_, fun _ => ?_⟩
      · simp [serverRunningAtEnd, hrec, evIdx]
      · rw [hrec] at hco; simp at hco
      · simp [hrec, evIdx]

/-- Claim C2 witness: the amended theorem applied to the concrete pairing
cfgC1, whose spawns succeed. -/
theorem claim_C2_witness :
    serverRunningAtEnd cfgC1 = false ∧
    ((runPairing cfgC1).timedOut = false → testerRunningAtEnd cfgC1 = false) ∧
    ((runPairing cfgC1).timedOut = true →
      (evIdx (runPairing cfgC1).trace .interruptTester).isSome = true) :=
  claim_C2_amended cfgC1 rfl rfl

/-- Every pairing whose two spawns succeed produces a row (no exception
escapes the loop body of main in that case). -/
theorem runPairing_isOk (c : Cfg) (hs : c.serverSpawnErr = none)
    (ht : c.testerSpawnErr = none) :
    ∃ row, (runPairing c).result = .ok row := by
  cases hE : c.tester.exitEvent c.serverReadyAfter none with
  | none =>
    exact ⟨_, by rw [runPairing_timeout c hs ht (by simp [Proc.statusAt, hE])]⟩
  | some tc =>
    by_cases hle : tc.1 ≤ c.serverReadyAfter + modeBound c.mode c.T
    · exact ⟨_, by rw [runPairing_exit c hs ht tc.1 tc.2 hE hle]⟩
    · exact ⟨_,
        by rw [runPairing_timeout c hs ht (by simp [Proc.statusAt, hE, hle])]⟩

/-- Claim C3 counterexample: a server spawn failure in the first pairing
is not converted into a result row; it escapes main, aborts the whole run
before the second (healthy) pairing, and is re-raised by the __main__
guard without the abort notice reserved for the operator interrupt. -/
theorem claim_C3_counterexample :
    mainEntry [cfgC3fail, cfgC3good] = (false, .error .spawnFailure) ∧
    (runPairing cfgC3fail).result = .error .spawnFailure := by
  exact ⟨rfl, rfl⟩

/-- Claim C3 amended: only the two result-valued error kinds
(TesterTimeout and TesterNonZeroExit) are converted into per-pairing rows
with the run continuing — every pairing whose spawns succeed yields
exactly one row; a SpawnFailure escapes uncaught and aborts the run,
StartupTimeout cannot arise (the readiness wait is unbounded), and a
KeyboardInterrupt aborts the run with the notice printed once and the
exception re-raised. -/
theorem claim_C3_amended :
    (∀ cs : List Cfg,
      (∀ c ∈ cs, c.serverSpawnErr = none ∧ c.testerSpawnErr = none) →
      ∃ rows, runAll cs = .ok rows ∧ rows.length = cs.length) ∧
    (∀ cs : List Cfg, runAll cs = .error .keyboardInterrupt →
      mainEntry cs = (true, .error .keyboardInterrupt)) ∧
    (∀ cs : List Cfg, runAll cs = .error .spawnFailure →
      mainEntry cs = (false, .error .spawnFailure)) := by
  refine ⟨fun cs => ?_, fun cs h => by simp [mainEntry, h], fun cs h => by
    simp [mainEntry, h]⟩
  induction cs with
  | nil => exact fun _ => ⟨[], rfl, rfl⟩
  | cons c rest ih =>
    intro h
    obtain ⟨row, hrow⟩ := runPairing_isOk c
      (h c (List.mem_cons_self c rest)).1 (h c (List.mem_cons_self c rest)).2
    obtain ⟨rows, hrows, hlen⟩ := ih (fun d hd => h d (List.mem_cons_of_mem c hd))
    exact ⟨row :: rows, by simp [runAll, hrow, hrows], by simp [hlen]⟩

/-- Claim C3 witness: the amended theorem applied to a healthy singleton
run and to a run aborted by the operator. -/
theorem claim_C3_witness :
    (∃ rows, runAll [cfgC3good] = .ok rows ∧ rows.length = 1) ∧
    mainEntry [cfgC3ki] = (true, .error .keyboardInterrupt) :=
  ⟨claim_C3_amended.1 [cfgC3good]
      (fun c hc => by
        rw [List.mem_singleton] at hc
        subst hc
        exact ⟨rfl, rfl⟩),
   claim_C3_amended.2.1 [cfgC3ki] rfl⟩

/-- Claim C4 counterexample: in the pairing cfgC4 the server spawns and
becomes ready, then the tester spawn raises; because main has no
finally-style guard, the server teardown sequence never runs — the trace
has the server spawn but no interrupt, grace wait or kill on it. -/
theorem claim_C4_counterexample :
    (runPairing cfgC4).result = .error .spawnFailure ∧
    evIdx (runPairing cfgC4).trace .spawnServer = some 0 ∧
    evIdx (runPairing cfgC4).trace .interruptServer = none ∧
    evIdx (runPairing cfgC4).trace (.waitServer graceTicks) = none ∧
    evIdx (runPairing cfgC4).trace .killServer = none := by
  refine ⟨rfl, by decide, by decide, by decide, by decide⟩

/-- Claim C4 amended: the server teardown sequence (interrupt, bounded
grace wait, kill, in that order) runs exactly when both spawns succeed
and the wait loop finishes; an exception raised by either spawn skips it
entirely. -/
theorem claim_C4_amended (c : Cfg) :
    (c.serverSpawnErr = none → c.testerSpawnErr = none →
      evBefore (runPairing c).trace .interruptServer (.waitServer graceTicks) =
        true ∧
      evBefore (runPairing c).trace (.waitServer graceTicks) .killServer =
        true) ∧
    (c.serverSpawnErr = none → ∀ e, c.testerSpawnErr = some e →
      evIdx (runPairing c).trace .interruptServer = none ∧
      evIdx (runPairing c).trace .killServer = none) := by
  constructor
  · intro hs ht
    cases hE : c.tester.exitEvent c.serverReadyAfter none with
    | none =>
      have hrec := runPairing_timeout c hs ht (by simp [Proc.statusAt, hE])
      constructor <;> simp [evBefore, hrec, evIdx]
    | some tc =>
      by_cases hle : tc.1 ≤ c.serverReadyAfter + modeBound c.mode c.T
      · have hrec := runPairing_exit c hs ht tc.1 tc.2 hE hle
        constructor <;> simp [evBefore, hrec, evIdx]
      · have hrec := runPairing_timeout c hs ht
          (by simp [Proc.statusAt, hE, hle])
        constructor <;> simp [evBefore, hrec, evIdx]
  · intro hs e hte
    constructor <;> simp [runPairing, hs, hte, evIdx]

/-- Claim C4 witness: the amended theorem applied to the healthy pairing
cfgC4ok (teardown runs, in order) and to cfgC4 (tester spawn raises,
teardown skipped). -/
theorem claim_C4_witness :
    (evBefore (runPairing cfgC4ok).trace .interruptServer
        (.waitServer graceTicks) = true ∧
      evBefore (runPairing cfgC4ok).trace (.waitServer graceTicks)
        .killServer = true) ∧
    (evIdx (runPairing cfgC4).trace .interruptServer = none ∧
      evIdx (runPairing cfgC4).trace .killServer = none) :=
  ⟨(claim_C4_amended cfgC4ok).1 rfl rfl,
   (claim_C4_amended cfgC4).2 rfl .spawnFailure rfl⟩

/-- Claim C5 counterexample: in the timed-out pairing cfgC5 the tester is
interrupted, but no final un-timed wait() is ever issued on the tester
handle — line 273 of runner.py sits behind the elif that the timeout
branch bypasses. -/
theorem claim_C5_counterexample :
    (runPairing cfgC5).timedOut = true ∧
    evIdx (runPairing cfgC5).trace .interruptTester = some 4 ∧
    evIdx (runPairing cfgC5).trace .finalWaitTester = none := by
  refine ⟨rfl, by decide, by decide⟩

/-- Claim C5 amended: the final un-timed wait() on the tester is issued
exactly in the pairings in which no timeout was detected; in a timed-out
pairing the tester is interrupted and then never waited on again. -/
theorem claim_C5_amended (c : Cfg) (hs : c.serverSpawnErr = none)
    (ht : c.testerSpawnErr = none) :
    ((runPairing c).timedOut = true →
      (evIdx (runPairing c).trace .interruptTester).isSome = true ∧
      evIdx (runPairing c).trace .finalWaitTester = none) ∧
    ((runPairing c).timedOut = false →
      (evIdx (runPairing c).trace .finalWaitTester).isSome = true ∧
      evIdx (runPairing c).trace .interruptTester = none) := by
  cases hE : c.tester.exitEvent c.serverReadyAfter none with
  | none =>
    have hrec := runPairing_timeout c hs ht (by simp [Proc.statusAt, hE])
    refine ⟨fun _ => ?_, fun hco => ?_⟩
    · constructor <;> simp [hrec, evIdx]
    · rw [hrec] at hco; simp at hco
  | some tc =>
    by_cases hle : tc.1 ≤ c.serverReadyAfter + modeBound c.mode c.T
    · have hrec := runPairing_exit c hs ht tc.1 tc.2 hE hle
      refine ⟨fun hco => ?_, fun _ => ?_⟩
      · rw [hrec] at hco; simp at hco
      · constructor <;> simp [hrec, evIdx]
    · have hrec := runPairing_timeout c hs ht (by simp [Proc.statusAt, hE, hle])
      refine ⟨fun _ => ?_, fun hco => ?_⟩
      · constructor <;> simp [hrec, evIdx]
      · rw [hrec] at hco; simp at hco

/-- Claim C5 witness: the amended theorem applied to the concrete pairing
cfgC1. -/
theorem claim_C5_witness :
    (((runPairing cfgC1).timedOut = true →
      (evIdx (runPairing cfgC1).trace .interruptTester).isSome = true ∧
      evIdx (runPairing cfgC1).trace .finalWaitTester = none)) ∧
    ((runPairing cfgC1).timedOut = false →
      (evIdx (runPairing cfgC1).trace .finalWaitTester).isSome = true ∧
      evIdx (runPairing cfgC1).trace .interruptTester = none) :=
  claim_C5_amended cfgC1 rfl rfl

/-- Claim C6 counterexample: in progress mode a tester whose run time (4
ticks) exceeds the timeout (3 ticks) by exactly one polling interval is
seen to have exited by the poll that would have detected the excess, so
the pairing reports Success(4 ticks) instead of Timeout. -/
theorem claim_C6_counterexample :
    cfgC6.tester.runsFor = some 4 ∧ cfgC6.T = 3 ∧ cfgC6.T < 4 ∧
    cfgC6.mode = .progress ∧
    (runPairing cfgC6).timedOut = false ∧
    (runPairing cfgC6).result = .ok (.success 4) := by
  refine ⟨rfl, rfl, by decide, rfl, rfl, rfl⟩

/-- Claim C6 amended: a tester still running at the decisive poll — the
full budget in silent mode, one polling interval past it in progress
mode — always yields Timeout(TEST_TIMEOUT), and the elapsed time the
orchestrator measures when the timeout fires is within one polling
interval of the budget: exactly it in silent mode, one interval past it
in progress mode. -/
theorem claim_C6_amended (c : Cfg) (hs : c.serverSpawnErr = none)
    (ht : c.testerSpawnErr = none)
    (hrun : c.tester.statusAt c.serverReadyAfter none
      (c.serverReadyAfter + modeBound c.mode c.T) = none) :
    (runPairing c).result = .ok (.timeout c.T) ∧
    (runPairing c).timedOut = true ∧
    c.T ≤ (runPairing c).durationTicks ∧
    (runPairing c).durationTicks ≤ c.T + 1 ∧
    (c.mode = .silent → (runPairing c).durationTicks = c.T) ∧
    (c.mode = .progress → (runPairing c).durationTicks = c.T + 1) := by
  rw [runPairing_timeout c hs ht hrun]
  refine ⟨rfl, rfl, ?_, ?_, fun hm => ?_, fun hm => ?_⟩ <;>
    cases hm2 : c.mode <;> simp_all [modeBound]

/-- Claim C6 witness: the amended theorem applied to the concrete
silent-mode pairing cfgC6w, whose tester is still running when the wait
budget elapses. -/
theorem claim_C6_witness :
    (runPairing cfgC6w).result = .ok (.timeout cfgC6w.T) ∧
    (runPairing cfgC6w).timedOut = true ∧
    cfgC6w.T ≤ (runPairing cfgC6w).durationTicks ∧
    (runPairing cfgC6w).durationTicks ≤ cfgC6w.T + 1 ∧
    (cfgC6w.mode = .silent → (runPairing cfgC6w).durationTicks = cfgC6w.T) ∧
    (cfgC6w.mode = .progress →
      (runPairing cfgC6w).durationTicks = cfgC6w.T + 1) :=
  claim_C6_amended cfgC6w rfl rfl rfl

/-- On a pairing whose spawns succeed, the duration main computes at
runner.py line 263 depends only on the tester's own run length, the wait
mode and the timeout — not on the server readiness delay. -/
theorem durationTicks_eq (c : Cfg) (hs : c.serverSpawnErr = none)
    (ht : c.testerSpawnErr = none) :
    (runPairing c).durationTicks =
      match c.tester.runsFor with
      | some r => min r (modeBound c.mode c.T)
      | none => modeBound c.mode c.T := by
  cases hr : c.tester.runsFor with
  | none =>
    have hE : c.tester.exitEvent c.serverReadyAfter none = none := by
      simp [Proc.exitEvent, hr]
    rw [runPairing_timeout c hs ht (by simp [Proc.statusAt, hE])]
  | some r =>
    have hE : c.tester.exitEvent c.serverReadyAfter none =
        some (c.serverReadyAfter + r, c.tester.natCode) := by
      simp [Proc.exitEvent, hr]
    by_cases hle : r ≤ modeBound c.mode c.T
    · rw [runPairing_exit c hs ht (c.serverReadyAfter + r) c.tester.natCode hE
        (by omega)]
      simp
      omega
    · rw [runPairing_timeout c hs ht (by simp [Proc.statusAt, hE]; omega)]
      simp
      omega

/-- On a pairing whose spawns succeed, the trace starts with the server
spawn, the readiness return, the start-timestamp recording and the tester
spawn, and both recorded ticks equal the readiness tick. -/
theorem runPairing_start (c : Cfg) (hs : c.serverSpawnErr = none)
    (ht : c.testerSpawnErr = none) :
    (∃ rest, (runPairing c).trace =
      (0, Ev.spawnServer) :: (c.serverReadyAfter, Ev.serverReady) ::
      (c.serverReadyAfter, Ev.recordStart) ::
      (c.serverReadyAfter, Ev.spawnTester) :: rest) ∧
    (runPairing c).startStamp = c.serverReadyAfter ∧
    (runPairing c).testerSpawnAt = c.serverReadyAfter := by
  cases hE : c.tester.exitEvent c.serverReadyAfter none with
  | none =>
    rw [runPairing_timeout c hs ht (by simp [Proc.statusAt, hE])]
    exact ⟨⟨_, rfl⟩, rfl, rfl⟩
  | some tc =>
    by_cases hle : tc.1 ≤ c.serverReadyAfter + modeBound c.mode c.T
    · rw [runPairing_exit c hs ht tc.1 tc.2 hE hle]
      exact ⟨⟨_, rfl⟩, rfl, rfl⟩
    · rw [runPairing_timeout c hs ht (by simp [Proc.statusAt, hE, hle])]
      exact ⟨⟨_, rfl⟩, rfl, rfl⟩

/-- Claim C7: the start timestamp is recorded after the server spawn and
readiness wait complete and before the tester spawns, and the reported
duration therefore excludes the readiness delay — changing the readiness
delay leaves the duration unchanged. -/
theorem claim_C7 (c : Cfg) (hs : c.serverSpawnErr = none)
    (ht : c.testerSpawnErr = none) :
    (∃ rest, (runPairing c).trace =
      (0, Ev.spawnServer) :: (c.serverReadyAfter, Ev.serverReady) ::
      (c.serverReadyAfter, Ev.recordStart) ::
      (c.serverReadyAfter, Ev.spawnTester) :: rest) ∧
    (runPairing c).startStamp = c.serverReadyAfter ∧
    (runPairing c).testerSpawnAt = c.serverReadyAfter ∧
    (∀ r2 : Nat,
      (runPairing { c with serverReadyAfter := r2 }).durationTicks =
        (runPairing c).durationTicks) := by
  obtain ⟨h1, h2, h3⟩ := runPairing_start c hs ht
  refine ⟨h1, h2, h3, fun r2 => ?_⟩
  rw [durationTicks_eq { c with serverReadyAfter := r2 } hs ht,
    durationTicks_eq c hs ht]

/-- Claim C7 witness: the theorem applied to the concrete pairing cfgC7,
comparing its readiness delay of 4 ticks against one of 9 ticks. -/
theorem claim_C7_witness :
    (runPairing cfgC7).startStamp = cfgC7.serverReadyAfter ∧
    (runPairing cfgC7).testerSpawnAt = cfgC7.serverReadyAfter ∧
    (runPairing { cfgC7 with serverReadyAfter := 9 }).durationTicks =
      (runPairing cfgC7).durationTicks :=
  ⟨(claim_C7 cfgC7 rfl rfl).2.1, (claim_C7 cfgC7 rfl rfl).2.2.1,
   (claim_C7 cfgC7 rfl rfl).2.2.2 9⟩

/-- Claim C8: within every pairing whose spawns succeed, the server spawn
precedes the tester spawn, the tester completion-or-timeout observation
(the duration recording of line 263) precedes the server teardown, and
within teardown the server interrupt precedes the server kill. -/
theorem claim_C8 (c : Cfg) (hs : c.serverSpawnErr = none)
    (ht : c.testerSpawnErr = none) :
    evBefore (runPairing c).trace .spawnServer .spawnTester = true ∧
    evBefore (runPairing c).trace .spawnTester .recordDuration = true ∧
    evBefore (runPairing c).trace .recordDuration .interruptServer = true ∧
    evBefore (runPairing c).trace .interruptServer .killServer = true := by
  cases hE : c.tester.exitEvent c.serverReadyAfter none with
  | none =>
    have hrec := runPairing_timeout c hs ht (by simp [Proc.statusAt, hE])
    refine ⟨?_, ?_, ?_, ?_⟩ <;> simp [evBefore, hrec, evIdx]
  | some tc =>
    by_cases hle : tc.1 ≤ c.serverReadyAfter + modeBound c.mode c.T
    · have hrec := runPairing_exit c hs ht tc.1 tc.2 hE hle
      refine ⟨?_, ?_, ?_, ?_⟩ <;> simp [evBefore, hrec, evIdx]
    · have hrec := runPairing_timeout c hs ht (by simp [Proc.statusAt, hE, hle])
      refine ⟨?_, ?_, ?_, ?_⟩ <;> simp [evBefore, hrec, evIdx]

/-- Claim C8 witness: the theorem applied to the concrete pairing
cfgC8. -/
theorem claim_C8_witness :
    evBefore (runPairing cfgC8).trace .spawnServer .spawnTester = true ∧
    evBefore (runPairing cfgC8).trace .spawnTester .recordDuration = true ∧
    evBefore (runPairing cfgC8).trace .recordDuration .interruptServer = true ∧
    evBefore (runPairing cfgC8).trace .interruptServer .killServer = true :=
  claim_C8 cfgC8 rfl rfl

end Runner
